import Mathlib

/-!
A shallow embedding, in Lean 4, of the document-ingestion layer and the
vector-store adapters of the RAG-Pipeline repository, together with theorems
settling the specification claims about them.

Modelling conventions:
* Python dictionaries of fixed shape become structures; `d.get(k, v)` becomes
  an `Option`-valued field read with `Option.getD`.
* Python exceptions become `Except PyErr`; distinct exception classes are
  distinct constructors of `PyErr`.
* Floating-point embedding vectors and similarity scores are opaque payloads
  (the code under study performs no arithmetic on them), modelled as integer
  lists and integers.
* `uuid.uuid4()` (a fresh random UUID) is modelled by a counter drawing a
  value distinct from every previously drawn one, the probability-one
  behaviour of random UUID generation.
-/

namespace RAG

/-- Parsed JSON data, as returned by Python `json.load`.  Floats are omitted:
no analysed behaviour depends on them. -/
inductive Json where
  | null
  | bool (b : Bool)
  | int (n : Int)
  | str (s : String)
  | arr (xs : List Json)
  | obj (kvs : List (String × Json))

/-- Python exception classes raised or caught by the embedded code. -/
inductive PyErr where
  | fileNotFound (msg : String)
  | valueError (msg : String)
  | typeError (msg : String)
  | indexError (msg : String)
  | exception (msg : String)
deriving DecidableEq

/-- The message carried by an exception (`str(e)`). -/
def PyErr.msg : PyErr → String
  | .fileNotFound m => m
  | .valueError m => m
  | .typeError m => m
  | .indexError m => m
  | .exception m => m

mutual

/-- Python `repr` of a parsed-JSON value (strings assumed quote-free, as in
every input considered here). -/
def pyRepr : Json → String
  | .null => "None"
  | .bool true => "True"
  | .bool false => "False"
  | .int n => toString n
  | .str s => "\x27" ++ s ++ "\x27"
  | .arr xs => "[" ++ String.intercalate ", " (pyReprList xs) ++ "]"
  | .obj kvs => "\x7b" ++ String.intercalate ", " (pyReprObj kvs) ++ "\x7d"

/-- `repr` of each element of a Python list. -/
def pyReprList : List Json → List String
  | [] => []
  | x :: xs => pyRepr x :: pyReprList xs

/-- `repr` of each key/value pair of a Python dict. -/
def pyReprObj : List (String × Json) → List String
  | [] => []
  | (k, v) :: kvs => ("\x27" ++ k ++ "\x27: " ++ pyRepr v) :: pyReprObj kvs

end

/-- Python `str` of a parsed-JSON value. -/
def pyStr : Json → String
  | .str s => s
  | v => pyRepr v

/-- Python truthiness of a parsed-JSON value (`bool(v)`). -/
def Json.truthy : Json → Bool
  | .null => false
  | .bool b => b
  | .int n => n != 0
  | .str s => s != ""
  | .arr xs => !xs.isEmpty
  | .obj kvs => !kvs.isEmpty

/-- Python `len` of a parsed-JSON value; `len` of a scalar raises
`TypeError`. -/
def pyLen : Json → Except PyErr Nat
  | .str s => .ok s.length
  | .arr xs => .ok xs.length
  | .obj kvs => .ok kvs.length
  | _ => .error (.typeError "object has no len()")

/-- The origin tag `_load_json` stores for a JSON-derived document:
`json_index` for array elements, `json_key` for object values. -/
inductive JsonTag where
  | index (i : Nat)
  | key (k : String)
deriving DecidableEq

/-- The metadata dictionary attached to loaded documents and chunks.  Every
field models one key the code may set; an unset key is `none`. -/
structure Metadata where
  filename : Option String := none
  file_path : Option String := none
  file_size : Option Nat := none
  file_type : Option String := none
  character_count : Option Nat := none
  chunk_id : Option Nat := none
  chunk_text : Option String := none
  jsonTag : Option JsonTag := none
deriving DecidableEq

/-- A raw document produced by `DocumentLoader`: `{content, metadata}`.
`content` is a `Json` value because `_load_json` can select a non-string
`content` field from an element. -/
structure RawDoc where
  content : Json
  metadata : Metadata

/-- What a file on disk parses as, per format.  `.error ()` inside a
constructor is a parse failure of that format; a file whose bytes do not
match the format its extension announces is likewise a load failure. -/
inductive FileData where
  | txt (content : String)
  | pdf (pages : Except Unit (List String))
  | docx (paras : Except Unit (List String))
  | jsonData (parse : Except Unit Json)

/-- A file on disk: its `stat().st_size` and its parsed content. -/
structure DiskFile where
  size : Nat
  data : FileData

/-- `str.lower()`, character by character. -/
def strLower (s : String) : String :=
  String.mk (s.toList.map Char.toLower)

/-- `str.strip()`: drop leading and trailing whitespace. -/
def pyStrip (s : String) : String :=
  String.mk
    (((s.toList.dropWhile Char.isWhitespace).reverse.dropWhile
        Char.isWhitespace).reverse)

/-- `int(s)` for an all-digit string. -/
def digitsToNat (s : String) : Nat :=
  s.toList.foldl (fun n c => 10 * n + (c.toNat - '0'.toNat)) 0

/-- `pathlib.Path(p).name`: the final path component. -/
def pathName (p : String) : String :=
  String.mk ((p.toList.reverse.takeWhile (fun c => c != '/')).reverse)

/-- Index of the last occurrence of `c` in `cs`, if any. -/
def lastIdxOf (c : Char) (cs : List Char) : Option Nat :=
  ((cs.enum.filter (fun p => p.2 = c)).getLast?).map (·.1)

/-- `pathlib.Path(p).suffix`: from the last dot of the final component,
empty when that dot is leading, trailing or absent. -/
def pathSuffix (p : String) : String :=
  let name := pathName p
  let cs := name.toList
  match lastIdxOf '.' cs with
  | some i => if 0 < i && i + 1 < cs.length then String.mk (cs.drop i) else ""
  | none => ""

/-- `DocumentLoader.supported_formats`. -/
def supported_formats : List String := [".txt", ".pdf", ".docx", ".json"]

/-- Python `x or y` over an optional dict lookup: the looked-up value when
present and truthy, otherwise the fallback. -/
def pyOr (x : Option Json) (y : Json) : Json :=
  match x with
  | some v => if v.truthy then v else y
  | none => y

/-- `doc.get('content') or doc.get('publication_description') or str(doc)`
for a dict element of a JSON file. -/
def selectDictContent (kvs : List (String × Json)) : Json :=
  pyOr (kvs.lookup "content")
    (pyOr (kvs.lookup "publication_description") (.str (pyStr (.obj kvs))))

/-- Content chosen by `_load_json` for one JSON element: the dict selection
chain for dicts, `str(doc)` otherwise. -/
def elemContent : Json → Json
  | .obj kvs => selectDictContent kvs
  | d => .str (pyStr d)

/-- `if content is None: content = ""`. -/
def noneToEmpty (c : Json) : Json :=
  match c with
  | .null => .str ""
  | c => c

/-- One document record appended by `_load_json` for a tagged JSON element;
fails with `TypeError` when `len(content)` is undefined. -/
def jsonElemDoc (fpath : String) (fsize : Nat) (tag : JsonTag) (d : Json) :
    Except PyErr RawDoc := do
  let content := noneToEmpty (elemContent d)
  let cc ← pyLen content
  .ok { content := content,
        metadata := { filename := some (pathName fpath),
                      file_path := some fpath,
                      file_size := some fsize,
                      file_type := some (strLower (pathSuffix fpath)),
                      character_count := some cc,
                      jsonTag := some tag } }

/-- The loop of `_load_json` over a JSON array, from index `i`. -/
def loadJsonArr (fpath : String) (fsize : Nat) (i : Nat) :
    List Json → Except PyErr (List RawDoc)
  | [] => .ok []
  | d :: ds => do
    let doc ← jsonElemDoc fpath fsize (.index i) d
    let rest ← loadJsonArr fpath fsize (i + 1) ds
    .ok (doc :: rest)

/-- The loop of `_load_json` over a JSON object's key/value pairs. -/
def loadJsonObj (fpath : String) (fsize : Nat) :
    List (String × Json) → Except PyErr (List RawDoc)
  | [] => .ok []
  | (k, d) :: kvs => do
    let doc ← jsonElemDoc fpath fsize (.key k) d
    let rest ← loadJsonObj fpath fsize kvs
    .ok (doc :: rest)

/-- `DocumentLoader._load_json`, applied to the parsed JSON value of the
file. -/
def load_json (fpath : String) (fsize : Nat) (v : Json) :
    Except PyErr (List RawDoc) :=
  match v with
  | .arr xs => loadJsonArr fpath fsize 0 xs
  | .obj kvs => loadJsonObj fpath fsize kvs
  | _ =>
    let content := match v with | .null => "" | v => pyStr v
    .ok [{ content := .str content,
           metadata := { filename := some (pathName fpath),
                         file_path := some fpath,
                         file_size := some fsize,
                         file_type := some (strLower (pathSuffix fpath)),
                         character_count := some content.length } }]

/-- The `{content, metadata}` record `load_document` builds for a non-JSON
file. -/
def textDocOf (path : String) (fsize : Nat) (text : String) : RawDoc :=
  { content := .str text,
    metadata := { filename := some (pathName path),
                  file_path := some path,
                  file_size := some fsize,
                  file_type := some (strLower (pathSuffix path)),
                  character_count := some text.length } }

/-- Result of `DocumentLoader.load_document`: a single record for `.txt`,
`.pdf` and `.docx`, a list for `.json`. -/
inductive LoadResult where
  | single (d : RawDoc)
  | multiple (ds : List RawDoc)

/-- `DocumentLoader.load_document`.  `file = none` models a path that does
not exist.  Existence is checked first, then the extension, then the format
branch runs. -/
def load_document (path : String) (file : Option DiskFile) :
    Except PyErr LoadResult :=
  match file with
  | none => .error (.fileNotFound ("File not found: " ++ path))
  | some f =>
    let sfx := pathSuffix path
    if strLower sfx ∈ supported_formats then
      if strLower sfx = ".txt" then
        match f.data with
        | .txt content => .ok (.single (textDocOf path f.size content))
        | _ => .error (.exception "unreadable file")
      else if strLower sfx = ".pdf" then
        match f.data with
        | .pdf (.ok pages) =>
          .ok (.single (textDocOf path f.size
            (pyStrip (pages.foldl (fun acc p => acc ++ p ++ "\n") ""))))
        | _ => .error (.exception "Error reading PDF file")
      else if strLower sfx = ".docx" then
        match f.data with
        | .docx (.ok paras) =>
          .ok (.single (textDocOf path f.size
            (pyStrip (paras.foldl (fun acc p => acc ++ p ++ "\n") ""))))
        | _ => .error (.exception "Error reading DOCX file")
      else
        match f.data with
        | .jsonData (.ok v) => (load_json path f.size v).map .multiple
        | _ => .error (.valueError "JSON decode error")
    else
      .error (.valueError ("Unsupported file format: " ++ sfx))

/-- A directory entry as seen by `Path.iterdir`: a regular file or an
immediate subdirectory (whose own entries `iterdir` does not descend
into). -/
inductive Entry where
  | file (name : String) (f : DiskFile)
  | subdir (name : String) (children : List Entry)

/-- What one directory entry contributes to `load_directory`'s result:
nothing for subdirectories, unsupported extensions and failed loads;
the loaded record(s) otherwise. -/
def entryDocs : Entry → List RawDoc
  | .subdir _ _ => []
  | .file name f =>
    if strLower (pathSuffix name) ∈ supported_formats then
      match load_document name (some f) with
      | .ok (.single d) => [d]
      | .ok (.multiple ds) => ds
      | .error _ => []
    else []

/-- The loop body of `load_directory`: skip anything that is not a regular
file with a supported extension, append a single loaded record, extend with
a loaded list, and skip (log-and-continue) an entry whose load raises. -/
def loadDirBody (documents : List RawDoc) (e : Entry) : List RawDoc :=
  match e with
  | .subdir _ _ => documents
  | .file name f =>
    if strLower (pathSuffix name) ∈ supported_formats then
      match load_document name (some f) with
      | .ok (.single d) => documents ++ [d]
      | .ok (.multiple ds) => documents ++ ds
      | .error _ => documents
    else documents

/-- `DocumentLoader.load_directory`: iterate the immediate entries and
accumulate the successfully loaded documents. -/
def load_directory (entries : List Entry) : List RawDoc :=
  entries.foldl loadDirBody []

/-! ## Vector-store adapters -/

/-- An embedding vector.  The adapters move vectors around untouched, so the
float components are modelled as integers. -/
abbrev Embedding := List Int

/-- A backend similarity score or distance (opaque to the analysed code). -/
abbrev Score := Int

/-- A Qdrant point id: Qdrant accepts integers and UUIDs only.  UUIDs drawn
by `uuid.uuid4()` are modelled as naturals from the fresh-supply counter. -/
inductive PointId where
  | intId (n : Nat)
  | uuidId (u : Nat)
deriving DecidableEq

/-- The payload dictionary both `QdrantVectorDB.add_documents` and
`WeaviateVectorDB.add_documents` build, field for field, for one record. -/
structure AdapterPayload where
  content : String
  filename : String
  file_path : String
  file_type : String
  chunk_id : Nat
  chunk_text : String
  file_size : Nat
  character_count : Nat
deriving DecidableEq

/-- A stored Qdrant point (`PointStruct`). -/
structure QPoint where
  id : PointId
  vector : Embedding
  payload : AdapterPayload
deriving DecidableEq

/-- State of one Qdrant collection, plus the model's fresh-UUID supply. -/
structure QdrantState where
  points : List QPoint
  nextUuid : Nat
deriving DecidableEq

/-- `chunk[:200] + "..." if len(chunk) > 200 else chunk`. -/
def truncPreview (chunk : String) : String :=
  if chunk.length > 200 then chunk.take 200 ++ "..." else chunk

/-- The payload built for item `i` of the zipped argument lists. -/
def adapterPayload (i : Nat) (document : String) (metadata : Metadata) :
    AdapterPayload :=
  { content := document,
    filename := metadata.filename.getD "",
    file_path := metadata.file_path.getD "",
    file_type := metadata.file_type.getD "",
    chunk_id := metadata.chunk_id.getD i,
    chunk_text := metadata.chunk_text.getD (truncPreview document),
    file_size := metadata.file_size.getD 0,
    character_count := metadata.character_count.getD document.length }

/-- Python `doc_id and doc_id.isdigit()`. -/
def isDigits (s : String) : Bool :=
  !s.isEmpty && s.toList.all (·.isDigit)

/-- Python `zip` of four lists: truncates to the shortest. -/
def zip4 {α β γ δ : Type} :
    List α → List β → List γ → List δ → List (α × β × γ × δ)
  | a :: as, b :: bs, c :: cs, d :: ds => (a, b, c, d) :: zip4 as bs cs ds
  | _, _, _, _ => []

/-- The point-construction loop of `QdrantVectorDB.add_documents`, threading
the fresh-UUID supply: an all-digit id becomes an integer point id, any other
id is replaced by a fresh random UUID. -/
def qdrantBuildPoints (i : Nat) (nextUuid : Nat) :
    List (Embedding × String × Metadata × String) → List QPoint × Nat
  | [] => ([], nextUuid)
  | (embedding, document, metadata, doc_id) :: rest =>
    let (point_id, nu) :=
      if isDigits doc_id then (PointId.intId (digitsToNat doc_id), nextUuid)
      else (PointId.uuidId nextUuid, nextUuid + 1)
    let point : QPoint :=
      { id := point_id, vector := embedding,
        payload := adapterPayload i document metadata }
    let (ps, nu2) := qdrantBuildPoints (i + 1) nu rest
    (point :: ps, nu2)

/-- Server-side upsert of one point: replace the point with that id when
present, append otherwise. -/
def qdrantUpsertOne (pts : List QPoint) (p : QPoint) : List QPoint :=
  if pts.any (fun q => q.id = p.id) then
    pts.map (fun q => if q.id = p.id then p else q)
  else pts ++ [p]

/-- `QdrantVectorDB.add_documents`: build the points from the zip of the four
argument lists, then `client.upsert` them. -/
def QdrantVectorDB.add_documents (st : QdrantState) (embeddings : List Embedding)
    (documents : List String) (metadatas : List Metadata) (ids : List String) :
    QdrantState :=
  let (points, nu) :=
    qdrantBuildPoints 0 st.nextUuid (zip4 embeddings documents metadatas ids)
  { points := points.foldl qdrantUpsertOne st.points, nextUuid := nu }

/-- One recorded call to the embedded ChromaDB client's `collection.add`. -/
structure ChromaAddCall where
  embeddings : List Embedding
  documents : List String
  metadatas : List Metadata
  ids : List String

/-- State of the ChromaDB adapter: the calls forwarded to the embedded
client (whose own behaviour is outside this repository). -/
structure ChromaState where
  addCalls : List ChromaAddCall

/-- `ChromaDBVectorDB.add_documents`: forwards the four lists unmodified to
`collection.add`. -/
def ChromaDBVectorDB.add_documents (st : ChromaState)
    (embeddings : List Embedding) (documents : List String)
    (metadatas : List Metadata) (ids : List String) : ChromaState :=
  { addCalls := st.addCalls ++
      [{ embeddings := embeddings, documents := documents,
         metadatas := metadatas, ids := ids }] }

/-- One object sent to Weaviate's batch endpoint. -/
structure WObject where
  uuid : String
  props : AdapterPayload
  vector : Embedding

/-- State of the Weaviate adapter: the objects batched to the server. -/
structure WeaviateState where
  objects : List WObject

/-- The batch-construction loop of `WeaviateVectorDB.add_documents`. -/
def weaviateBuildBatch (i : Nat) :
    List (Embedding × String × Metadata × String) → List WObject
  | [] => []
  | (embedding, document, metadata, doc_id) :: rest =>
    { uuid := doc_id, props := adapterPayload i document metadata,
      vector := embedding } :: weaviateBuildBatch (i + 1) rest

/-- `WeaviateVectorDB.add_documents`: zip the four lists, build the batch
payloads and send every item with `batch.add_data_object`. -/
def WeaviateVectorDB.add_documents (st : WeaviateState)
    (embeddings : List Embedding) (documents : List String)
    (metadatas : List Metadata) (ids : List String) : WeaviateState :=
  { objects := st.objects ++
      weaviateBuildBatch 0 (zip4 embeddings documents metadatas ids) }

/-! ## RAG pipeline -/

/-- The configuration keys the pipeline reads, with the defaults
`config.get(key, default)` supplies when a key is absent. -/
structure Config where
  chunk_size : Nat := 1000
  chunk_overlap : Nat := 200
  max_results : Nat := 5
  provider : String := "chromadb"
  collection_name : String := "documents"
  class_name : String := "Document"
  path : String := "./data/vectors"
  url : String := "http://localhost:6333"
  embed_model : String := "sentence-transformers/all-MiniLM-L6-v2"
  llm_model : String := "llama-3.1-8b-instant"

/-- A loader-produced document as the pipeline consumes it
(`doc_data['content']` used as text, `doc_data['metadata']`). -/
structure PDoc where
  content : String
  metadata : Metadata

/-- The per-chunk body of the ingestion loops: embed the chunk, copy and
extend the document metadata with `chunk_id` and `chunk_text`, and add one
record whose id is `f"{metadata['filename']}_chunk_{i}"` (the loader always
sets `filename`, so the dict access cannot fail). -/
def ingestChunk (embed : String → Embedding) (doc : PDoc) (st : QdrantState)
    (i : Nat) (chunk : String) : QdrantState :=
  let embedding := embed chunk
  let metadata : Metadata :=
    { doc.metadata with chunk_id := some i,
                        chunk_text := some (truncPreview chunk) }
  QdrantVectorDB.add_documents st [embedding] [chunk] [metadata]
    [(metadata.filename.getD "") ++ "_chunk_" ++ toString i]

/-- `RAGPipeline._process_single_document`, run against the Qdrant backend:
split the content, then embed and store every chunk; returns the chunk list
(the caller counts it). -/
def process_single_document (split : String → List String)
    (embed : String → Embedding) (doc : PDoc) (st : QdrantState) :
    List String × QdrantState :=
  let chunks := split doc.content
  (chunks,
   chunks.enum.foldl (fun st ic => ingestChunk embed doc st ic.1 ic.2) st)

/-- Output of `ingest_directory`: the backend state, the logged aggregate
total, and how many times the text splitter was invoked along the way. -/
structure IngestDirOut where
  db : QdrantState
  total_chunks : Nat
  split_calls : Nat

/-- Per-document body of the `ingest_directory` loop: one splitter call
(counted in the second component), then embed and store every chunk. -/
def ingestDirBody (split : String → List String) (embed : String → Embedding)
    (acc : QdrantState × Nat) (doc : PDoc) : QdrantState × Nat :=
  let chunks := split doc.content
  (chunks.enum.foldl (fun st ic => ingestChunk embed doc st ic.1 ic.2) acc.1,
   acc.2 + 1)

/-- Per-document body of the aggregate line
`sum(len(self.text_splitter.split_text(doc['content'])) for doc in
documents)`: one further splitter call per document. -/
def ingestDirTotal (split : String → List String) (acc : Nat × Nat)
    (doc : PDoc) : Nat × Nat :=
  (acc.1 + (split doc.content).length, acc.2 + 1)

/-- `RAGPipeline.ingest_directory`, run against the Qdrant backend, with the
splitter invocations counted: the per-document loop splits and stores each
document's chunks, then the aggregate line recomputes the chunk count of
every document with a second splitter invocation. -/
def ingest_directory (split : String → List String)
    (embed : String → Embedding) (documents : List PDoc) (db0 : QdrantState) :
    IngestDirOut :=
  let step := documents.foldl (ingestDirBody split embed) (db0, 0)
  let totals := documents.foldl (ingestDirTotal split) (0, step.2)
  { db := step.1, total_chunks := totals.1, split_calls := totals.2 }

/-- The ChromaDB-format result dictionary the backends return from `query`;
each key may be absent (`none`). -/
structure DBResults where
  documents : Option (List (List String))
  metadatas : Option (List (List Metadata))
  distances : Option (List (List Score))
  ids : Option (List (List String))

/-- `not results`: the result dictionary is empty (it holds none of its
keys). -/
def DBResults.isEmptyDict (r : DBResults) : Bool :=
  r.documents.isNone && r.metadatas.isNone && r.distances.isNone
    && r.ids.isNone

/-- `not results.get(k) or not results[k]` for a list-valued key: absent, or
present but an empty list. -/
def optListFalsy {α : Type} : Option (List α) → Bool
  | none => true
  | some l => l.isEmpty

/-- `PointId` rendered by `str(result.id)`. -/
def PointId.toStr : PointId → String
  | .intId n => toString n
  | .uuidId u => "uuid-" ++ toString u

/-- `QdrantVectorDB.query`: the external server's search is modelled by
`rank`, which orders the stored points by relevance to the query vector and
scores them with `scoreOf`; the adapter truncates to `limit` via the search
call and rebuilds the ChromaDB-format dictionary. -/
def QdrantVectorDB.query
    (rank : Embedding → List QPoint → List QPoint) (scoreOf : QPoint → Score)
    (st : QdrantState) (query_embeddings : List Embedding) (n_results : Nat) :
    DBResults :=
  let query_embedding := query_embeddings.headD []
  let search_results := (rank query_embedding st.points).take n_results
  { documents := some [search_results.map (fun r => r.payload.content)],
    metadatas := some [search_results.map (fun r =>
      ({ filename := some r.payload.filename,
         file_path := some r.payload.file_path,
         file_type := some r.payload.file_type,
         chunk_id := some r.payload.chunk_id,
         chunk_text := some r.payload.chunk_text,
         file_size := some r.payload.file_size,
         character_count := some r.payload.character_count } : Metadata))],
    distances := some [search_results.map scoreOf],
    ids := some [search_results.map (fun r => r.id.toStr)] }

/-- One formatted retrieval hit built by `retrieve_documents`. -/
structure RDoc where
  content : String
  metadata : Metadata
  distance : Option Score

/-- The result-formatting loop of `retrieve_documents` over
`range(len(results['documents'][0]))`: `metadatas[0][i]` and
`distances[0][i]` raise `IndexError` when those lists are shorter than
`documents[0]`. -/
def formatLoop (meta0 : List Metadata) (dist0 : Option (List Score)) :
    Nat → List String → Except PyErr (List RDoc)
  | _, [] => .ok []
  | i, content :: rest => do
    let metadata ←
      match meta0.get? i with
      | some m => Except.ok m
      | none => Except.error (.indexError "list index out of range")
    let distance ←
      match dist0 with
      | some l =>
        match l.get? i with
        | some d => Except.ok (some d)
        | none => Except.error (.indexError "list index out of range")
      | none => Except.ok none
    let docs ← formatLoop meta0 dist0 (i + 1) rest
    .ok ({ content := content, metadata := metadata,
           distance := distance } :: docs)

/-- `RAGPipeline.retrieve_documents`: embed the query, search the backend
with `query_embeddings = [query_embedding]` and `n_results = max_results`,
return `[]` when the guard finds the result dictionary unusable, and
otherwise format each hit. -/
def retrieve_documents (cfg : Config) (embed : String → Embedding)
    (dbQuery : List Embedding → Nat → DBResults) (query : String) :
    Except PyErr (List RDoc) :=
  let query_embedding := embed query
  let results := dbQuery [query_embedding] cfg.max_results
  if results.isEmptyDict || optListFalsy results.documents
      || optListFalsy results.metadatas
      || (results.distances.isSome && optListFalsy results.distances) then
    .ok []
  else
    let docs0 := (results.documents.getD []).headD []
    let meta0 := (results.metadatas.getD []).headD []
    let dist0 :=
      match results.distances with
      | some (d0 :: _) => if d0.isEmpty then none else some d0
      | _ => none
    formatLoop meta0 dist0 0 docs0

/-- `response.content` of the LLM: a string, or a list the code joins with
newlines. -/
inductive LLMContent where
  | str (s : String)
  | list (xs : List String)

/-- The f-string system prompt of `generate_response`, with the retrieved
context interpolated. -/
def systemPromptText (context : String) : String :=
  "\n        You are a helpful AI assistant. Answer the user\x27s question based on the provided context.\n        \n        Context:\n        " ++
  context ++
  "\n        \n        Instructions:\n        - Use only the information provided in the context\n        - If the answer is not in the context, say so\n        - Be concise and accurate\n        - Cite relevant parts of the context when possible\n        "

/-- `RAGPipeline.generate_response`: join the retrieved chunk texts with
blank lines, send the system prompt and the verbatim question to the LLM,
and flatten a list-valued response content. -/
def generate_response (llm : String → String → LLMContent) (query : String)
    (context_docs : List RDoc) : String :=
  let context := String.intercalate "\n\n" (context_docs.map (·.content))
  let system_message := systemPromptText context
  match llm system_message query with
  | .str s => s
  | .list xs => String.intercalate "\n" xs

/-- The dictionary `RAGPipeline.query` returns. -/
structure RAGResult where
  question : String
  response : String
  retrieved_documents : List RDoc
  num_sources : Nat

/-- `RAGPipeline.query`: retrieve, generate, and package the result with
`num_sources = len(retrieved_docs)`. -/
def RAGPipeline.query (cfg : Config) (embed : String → Embedding)
    (dbQuery : List Embedding → Nat → DBResults)
    (llm : String → String → LLMContent) (question : String) :
    Except PyErr RAGResult := do
  let retrieved_docs ← retrieve_documents cfg embed dbQuery question
  let response := generate_response llm question retrieved_docs
  .ok { question := question, response := response,
        retrieved_documents := retrieved_docs,
        num_sources := retrieved_docs.length }

/-! ## Pipeline construction and database clearing -/

/-- The text-splitter handle `_setup_text_splitter` builds. -/
structure TextSplitterCfg where
  chunk_size : Nat
  chunk_overlap : Nat
  separators : List String
deriving DecidableEq

/-- The LLM handle `_setup_llm` builds. -/
structure LLMCfg where
  model : String
  groq_api_key : String
deriving DecidableEq

/-- A constructed vector-store handle, one variant per provider. -/
inductive VDBHandle where
  | chroma (path : String) (collection_name : String)
  | weaviate (url : String) (class_name : String)
  | qdrant (url : String) (collection_name : String)
deriving DecidableEq

/-- `create_vector_db`: dispatch on the lower-cased provider tag; an unknown
provider is a `ValueError`. -/
def create_vector_db (cfg : Config) : Except PyErr VDBHandle :=
  let provider := strLower cfg.provider
  if provider = "chromadb" then .ok (.chroma cfg.path cfg.collection_name)
  else if provider = "weaviate" then .ok (.weaviate cfg.url cfg.class_name)
  else if provider = "qdrant" then .ok (.qdrant cfg.url cfg.collection_name)
  else .error (.valueError ("Unsupported vector database provider: " ++ provider))

/-- `RAGPipeline._setup_llm`: read `GROQ_API_KEY` from the environment
(`none` = unset); `if not api_key` rejects both an unset and an empty
value with a `ValueError`. -/
def setup_llm (cfg : Config) (env_groq_api_key : Option String) :
    Except PyErr LLMCfg :=
  match env_groq_api_key with
  | none => .error (.valueError "GROQ_API_KEY environment variable is required")
  | some api_key =>
    if api_key = "" then
      .error (.valueError "GROQ_API_KEY environment variable is required")
    else .ok { model := cfg.llm_model, groq_api_key := api_key }

/-- The component handles `RAGPipeline.__init__` assembles. -/
structure RAGPipelineHandles where
  text_splitter : TextSplitterCfg
  embeddings_model : String
  vector_db : VDBHandle
  llm : LLMCfg
deriving DecidableEq

/-- `RAGPipeline.__init__`: build the splitter, the embedding model handle,
the vector store and, unconditionally, the LLM.  Any component failure
aborts construction. -/
def RAGPipeline.init (cfg : Config) (env_groq_api_key : Option String) :
    Except PyErr RAGPipelineHandles := do
  let text_splitter : TextSplitterCfg :=
    { chunk_size := cfg.chunk_size, chunk_overlap := cfg.chunk_overlap,
      separators := ["\n\n", "\n", " ", ""] }
  let embeddings := cfg.embed_model
  let vector_db ← create_vector_db cfg
  let llm ← setup_llm cfg env_groq_api_key
  .ok { text_splitter := text_splitter, embeddings_model := embeddings,
        vector_db := vector_db, llm := llm }

/-- A Qdrant server: its named collections and their points. -/
structure QdrantServer where
  collections : List (String × List QPoint)

/-- The info dictionary `QdrantVectorDB.get_collection_info` returns: the
live point count; when the collection is absent the client raises and the
except-branch reports count 0. -/
structure CollectionInfo where
  name : String
  count : Nat
  provider : String

/-- `QdrantVectorDB.get_collection_info` against the server. -/
def QdrantVectorDB.get_collection_info (sv : QdrantServer)
    (collection_name : String) : CollectionInfo :=
  match sv.collections.lookup collection_name with
  | some pts => { name := collection_name, count := pts.length,
                  provider := "qdrant" }
  | none => { name := collection_name, count := 0, provider := "qdrant" }

/-- `QdrantVectorDB.delete_collection`: the client errors on an absent
collection and the adapter re-raises. -/
def QdrantVectorDB.delete_collection (sv : QdrantServer)
    (collection_name : String) : Except PyErr QdrantServer :=
  if (sv.collections.lookup collection_name).isSome then
    .ok { collections := sv.collections.filter (fun c => c.1 != collection_name) }
  else .error (.exception ("Collection " ++ collection_name ++ " not found"))

/-- `QdrantVectorDB._create_collection`, run at adapter construction:
reuse an existing collection, create it empty otherwise. -/
def QdrantVectorDB.create_collection (sv : QdrantServer)
    (collection_name : String) : QdrantServer :=
  if (sv.collections.lookup collection_name).isSome then sv
  else { collections := sv.collections ++ [(collection_name, [])] }

/-- The pipeline state `clear_database` works on: the backend server, the
collection name held by the current `self.vector_db` handle, and the
configuration. -/
structure PipeState where
  server : QdrantServer
  handle_collection : String
  cfg : Config

/-- The backend calls `clear_database` can make, in order. -/
inductive DbOp where
  | getInfo
  | deleteCollection
  | createVectorDb
deriving DecidableEq

/-- `RAGPipeline.clear_database`, run against the Qdrant backend: read the
live count; when it is 0 return at once, otherwise delete the collection and
rebuild `self.vector_db` from configuration (which recreates the collection).
The returned trace lists the backend calls made. -/
def clear_database (st : PipeState) : Except PyErr (PipeState × List DbOp) :=
  let collection_info :=
    QdrantVectorDB.get_collection_info st.server st.handle_collection
  let initial_count := collection_info.count
  if initial_count = 0 then .ok (st, [.getInfo])
  else
    match QdrantVectorDB.delete_collection st.server st.handle_collection with
    | .error e => .error (.exception ("Failed to clear database: " ++ e.msg))
    | .ok sv2 =>
      let sv3 := QdrantVectorDB.create_collection sv2 st.cfg.collection_name
      .ok ({ server := sv3, handle_collection := st.cfg.collection_name,
             cfg := st.cfg },
           [.getInfo, .deleteCollection, .createVectorDb])

/-! ## Test fixtures and helper lemmas -/

/-- A splitter producing one chunk: the whole text. -/
def splitWhole : String → List String := fun s => [s]

/-- A constant embedding function. -/
def embed1 : String → Embedding := fun _ => [1]

/-- Loader metadata of a small text document. -/
def docMeta : Metadata :=
  { filename := some "doc.txt", file_path := some "doc.txt",
    file_size := some 5, file_type := some ".txt",
    character_count := some 5 }

/-- A small pipeline document. -/
def doc0 : PDoc := { content := "hello", metadata := docMeta }

/-- An empty Qdrant collection with a fresh UUID supply. -/
def qdrant0 : QdrantState := { points := [], nextUuid := 0 }

theorem zip4_length {α β γ δ : Type} (a : List α) (b : List β) (c : List γ)
    (d : List δ) :
    (zip4 a b c d).length = min (min a.length b.length) (min c.length d.length) := by
  induction a generalizing b c d with
  | nil => cases b <;> (cases c <;> (cases d <;> simp [zip4]))
  | cons x xs ih =>
    cases b <;> (cases c <;> (cases d <;> (simp [zip4, ih]; try omega)))

theorem weaviateBuildBatch_length (i : Nat)
    (items : List (Embedding × String × Metadata × String)) :
    (weaviateBuildBatch i items).length = items.length := by
  induction items generalizing i with
  | nil => rfl
  | cons it rest ih =>
    obtain ⟨e, d, m, x⟩ := it
    simp [weaviateBuildBatch, ih]

theorem qdrantBuildPoints_length (i u : Nat)
    (items : List (Embedding × String × Metadata × String)) :
    (qdrantBuildPoints i u items).1.length = items.length := by
  induction items generalizing i u with
  | nil => rfl
  | cons it rest ih =>
    obtain ⟨e, d, m, x⟩ := it
    simp only [qdrantBuildPoints]
    by_cases h : isDigits x = true <;> simp [h, ih]

/-! ## C1 -/

/-- C1: the ingestion pipeline derives the logical id
`f"{filename}_chunk_{i}"`, but the Qdrant adapter does not store the record
under a stable function of it: ingesting the identical document twice through
`_process_single_document` stores the chunk under two distinct fresh UUIDs
(modelled by the supply counter), because `"doc.txt_chunk_0".isdigit()` is
false and `uuid.uuid4()` is substituted. -/
theorem C1_qdrant_substitutes_random_ids :
    ((process_single_document splitWhole embed1 doc0 qdrant0).2.points.map
        (fun p => p.id) = [.uuidId 0]) ∧
    ((process_single_document splitWhole embed1 doc0
        (process_single_document splitWhole embed1 doc0 qdrant0).2).2.points.map
        (fun p => p.id) = [.uuidId 0, .uuidId 1]) ∧
    PointId.uuidId 0 ≠ PointId.uuidId 1 := by
  refine ⟨rfl, rfl, by decide⟩

/-! ## C2 -/

/-- C2: `QdrantVectorDB.add_documents` is not an in-place overwrite for an
id already in the collection: adding the same `(embedding, document,
metadata, id)` batch twice grows the point count from 1 to 2, because the
non-digit id is replaced by a fresh random UUID on each call and the upsert
therefore never hits an existing point. -/
theorem C2_qdrant_double_ingest_duplicates :
    ((QdrantVectorDB.add_documents qdrant0 [[1]] ["hello"] [docMeta]
        ["doc.txt_chunk_0"]).points.length = 1) ∧
    ((QdrantVectorDB.add_documents
        (QdrantVectorDB.add_documents qdrant0 [[1]] ["hello"] [docMeta]
          ["doc.txt_chunk_0"])
        [[1]] ["hello"] [docMeta] ["doc.txt_chunk_0"]).points.length = 2) := by
  exact ⟨rfl, rfl⟩

/-! ## C3 -/

/-- C3 counterexample: calling the Qdrant adapter with four embeddings and
documents but a single id raises nothing and silently stores one point (the
zip truncates); no `InvalidArgumentError` exists in the code. -/
theorem C3_counterexample_no_length_validation :
    (QdrantVectorDB.add_documents qdrant0 [[1], [2]] ["a", "b"]
        [docMeta, docMeta] ["x0"]).points.length = 1 := by
  exact rfl

/-- C3 amended: no adapter validates the four argument lengths.  The Qdrant
and Weaviate adapters iterate over `zip(embeddings, documents, metadatas,
ids)`, silently truncating to the shortest list (the batch each sends to its
backend has `min` of the four lengths); the ChromaDB adapter forwards the
four lists unmodified and unvalidated to the embedded client. -/
theorem C3_adapters_truncate_or_forward (embeddings : List Embedding)
    (documents : List String) (metadatas : List Metadata) (ids : List String)
    (st : QdrantState) (wst : WeaviateState) (cst : ChromaState) :
    ((qdrantBuildPoints 0 st.nextUuid
        (zip4 embeddings documents metadatas ids)).1.length
      = min (min embeddings.length documents.length)
          (min metadatas.length ids.length)) ∧
    ((WeaviateVectorDB.add_documents wst embeddings documents metadatas
        ids).objects.length
      = wst.objects.length +
        min (min embeddings.length documents.length)
          (min metadatas.length ids.length)) ∧
    ((ChromaDBVectorDB.add_documents cst embeddings documents metadatas
        ids).addCalls
      = cst.addCalls ++
        [{ embeddings := embeddings, documents := documents,
           metadatas := metadatas, ids := ids }]) := by
  refine ⟨?_, ?_, rfl⟩
  · rw [qdrantBuildPoints_length, zip4_length]
  · simp [WeaviateVectorDB.add_documents, weaviateBuildBatch_length,
      zip4_length]

/-! ## C4 -/

theorem foldl_ingestDirBody_snd (split : String → List String)
    (embed : String → Embedding) :
    ∀ (docs : List PDoc) (acc : QdrantState × Nat),
      (docs.foldl (ingestDirBody split embed) acc).2 = acc.2 + docs.length := by
  intro docs
  induction docs with
  | nil => intro acc; simp
  | cons d ds ih =>
    intro acc
    simp only [List.foldl_cons, ih, ingestDirBody, List.length_cons]
    omega

theorem foldl_ingestDirTotal (split : String → List String) :
    ∀ (docs : List PDoc) (acc : Nat × Nat),
      docs.foldl (ingestDirTotal split) acc
        = (acc.1 + (docs.map (fun d => (split d.content).length)).sum,
           acc.2 + docs.length) := by
  intro docs
  induction docs with
  | nil => intro acc; simp
  | cons d ds ih =>
    intro acc
    simp only [List.foldl_cons, ih, ingestDirTotal, List.map_cons,
      List.sum_cons, List.length_cons, Prod.ext_iff]
    omega

/-- C4 counterexample: for a directory of one document, `ingest_directory`
invokes the text splitter twice, not once -- the aggregate total is computed
by an independent re-run of the split, contradicting the claim that the
split is never re-run to compute the reported total. -/
theorem C4_counterexample_split_rerun :
    (ingest_directory splitWhole embed1 [doc0] qdrant0).split_calls = 2 ∧
    ([doc0] : List PDoc).length = 1 ∧ (2 : Nat) ≠ 1 := by
  exact ⟨rfl, rfl, by decide⟩

/-- C4 amended: the reported aggregate equals the sum of per-document chunk
counts, but only because the splitter is a pure function: `ingest_directory`
recomputes it with a second, independent splitter invocation per document
(`split_calls = 2 * |documents|`, one call per document for embedding plus
one per document for the total). -/
theorem C4_total_is_recomputed_sum (split : String → List String)
    (embed : String → Embedding) (documents : List PDoc) (db0 : QdrantState) :
    ((ingest_directory split embed documents db0).total_chunks
      = (documents.map (fun d => (split d.content).length)).sum) ∧
    ((ingest_directory split embed documents db0).split_calls
      = 2 * documents.length) := by
  unfold ingest_directory
  simp only [foldl_ingestDirTotal, foldl_ingestDirBody_snd]
  constructor
  · simp
  · simp; omega

/-! ## C5 -/

theorem loadDirBody_eq (documents : List RawDoc) (e : Entry) :
    loadDirBody documents e = documents ++ entryDocs e := by
  cases e with
  | subdir n ch => simp [loadDirBody, entryDocs]
  | file name f =>
    by_cases h : strLower (pathSuffix name) ∈ supported_formats
    · cases hld : load_document name (some f) with
      | ok r => cases r <;> simp [loadDirBody, entryDocs, h, hld]
      | error e => simp [loadDirBody, entryDocs, h, hld]
    · simp [loadDirBody, entryDocs, h]

theorem foldl_loadDirBody (entries : List Entry) :
    ∀ acc, entries.foldl loadDirBody acc
      = acc ++ (entries.map entryDocs).flatten := by
  induction entries with
  | nil => intro acc; simp
  | cons e es ih =>
    intro acc
    simp [List.foldl_cons, loadDirBody_eq, ih, List.append_assoc]

/-- C5: `load_directory` returns exactly the concatenation, in directory
order, of what each immediate entry contributes -- a loaded single record,
a flattened JSON-derived list, or nothing for subdirectories, unsupported
extensions and failed loads.  In particular an entry whose load raises is
skipped while the rest of the directory is still loaded, and a
subdirectory's contents are never visited. -/
theorem C5_load_directory_spec :
    (∀ entries, load_directory entries = (entries.map entryDocs).flatten) ∧
    (∀ (pre post : List Entry) (name : String) (f : DiskFile) (err : PyErr),
      load_document name (some f) = .error err →
      load_directory (pre ++ Entry.file name f :: post)
        = load_directory (pre ++ post)) ∧
    (∀ (pre post : List Entry) (nm : String) (ch : List Entry),
      load_directory (pre ++ Entry.subdir nm ch :: post)
        = load_directory (pre ++ post)) := by
  have hjoin : ∀ entries, load_directory entries
      = (entries.map entryDocs).flatten :=
    fun entries => by simpa using foldl_loadDirBody entries []
  refine ⟨hjoin, ?_, ?_⟩
  · intro pre post name f err herr
    have hed : entryDocs (Entry.file name f) = [] := by
      unfold entryDocs
      by_cases h : strLower (pathSuffix name) ∈ supported_formats
      · simp [h, herr]
      · simp [h]
    simp [hjoin, hed]
  · intro pre post nm ch
    simp [hjoin, entryDocs]

/-- A JSON file whose bytes fail to parse. -/
def badJsonFile : DiskFile := { size := 3, data := .jsonData (.error ()) }

/-- Witness for C5: a directory holding one unreadable JSON file loads to
the empty document list (the failure is skipped, not raised). -/
theorem C5_witness :
    load_directory [Entry.file "bad.json" badJsonFile] = [] := by
  have h := C5_load_directory_spec.2.1 [] [] "bad.json" badJsonFile
      (.valueError "JSON decode error") (by rfl)
  simpa using h

/-! ## C6 -/

/-- A JSON value whose top level is neither an array nor an object. -/
def jsonIsScalar : Json → Bool
  | .arr _ => false
  | .obj _ => false
  | _ => true

theorem loadJsonArr_eq_mapM (fpath : String) (fsize : Nat) :
    ∀ (xs : List Json) (i : Nat),
      loadJsonArr fpath fsize i xs
        = (xs.enumFrom i).mapM
            (fun p => jsonElemDoc fpath fsize (.index p.1) p.2) := by
  intro xs
  induction xs with
  | nil => intro i; rfl
  | cons d ds ih =>
    intro i
    simp only [loadJsonArr, List.enumFrom, List.mapM_cons, ih]
    rfl

theorem loadJsonObj_eq_mapM (fpath : String) (fsize : Nat) :
    ∀ (kvs : List (String × Json)),
      loadJsonObj fpath fsize kvs
        = kvs.mapM (fun kv => jsonElemDoc fpath fsize (.key kv.1) kv.2) := by
  intro kvs
  induction kvs with
  | nil => rfl
  | cons kv rest ih =>
    obtain ⟨k, d⟩ := kv
    simp only [loadJsonObj, List.mapM_cons, ih]
    rfl

/-- C6 counterexample: for the element
`{"content": "", "publication_description": "x"}` the `content` field is
present, yet the loaded document's content is the fallback field `"x"`, not
`""` -- the selection chain `doc.get('content') or ...` skips a present but
falsy `content` field, contradicting "taken from the element's `content`
field if present". -/
theorem C6_counterexample_falsy_content_field :
    load_json "d.json" 7
        (.arr [.obj [("content", .str ""), ("publication_description", .str "x")]])
      = .ok [{ content := .str "x",
               metadata := { filename := some "d.json",
                             file_path := some "d.json",
                             file_size := some 7, file_type := some ".json",
                             character_count := some 1,
                             jsonTag := some (.index 0) } }] ∧
    Json.str "x" ≠ Json.str "" := by
  refine ⟨rfl, by simp⟩

/-- C6 amended: `_load_json` yields one record per array element (tagged
with its index) and one per object value (tagged with its key), each with
content chosen by the truthiness chain `content` field if present *and
truthy*, else `publication_description` if present and truthy, else the
element's string form (`jsonElemDoc`); a top level that is neither array nor
object yields exactly one record holding the value's string form, except
JSON `null` which yields the empty string. -/
theorem C6_load_json_spec :
    (∀ (fpath : String) (fsize : Nat) (xs : List Json),
      load_json fpath fsize (.arr xs)
        = (xs.enumFrom 0).mapM
            (fun p => jsonElemDoc fpath fsize (.index p.1) p.2)) ∧
    (∀ (fpath : String) (fsize : Nat) (kvs : List (String × Json)),
      load_json fpath fsize (.obj kvs)
        = kvs.mapM (fun kv => jsonElemDoc fpath fsize (.key kv.1) kv.2)) ∧
    (∀ (fpath : String) (fsize : Nat) (v : Json), jsonIsScalar v = true →
      load_json fpath fsize v
        = .ok [{ content := .str (match v with | .null => "" | v => pyStr v),
                 metadata := { filename := some (pathName fpath),
                               file_path := some fpath,
                               file_size := some fsize,
                               file_type := some (strLower (pathSuffix fpath)),
                               character_count :=
                                 some (match v with
                                       | .null => ""
                                       | v => pyStr v).length } }]) := by
  refine ⟨?_, ?_, ?_⟩
  · intro fpath fsize xs
    exact loadJsonArr_eq_mapM fpath fsize xs 0
  · intro fpath fsize kvs
    exact loadJsonObj_eq_mapM fpath fsize kvs
  · intro fpath fsize v hv
    cases v with
    | null => rfl
    | bool b => rfl
    | int n => rfl
    | str s => rfl
    | arr xs => simp [jsonIsScalar] at hv
    | obj kvs => simp [jsonIsScalar] at hv

/-- Witness for C6: a scalar JSON file (`5`) loads to one record holding
`"5"`, by the scalar clause; a one-element array loads via the per-element
mapping. -/
theorem C6_witness :
    load_json "n.json" 2 (.int 5)
      = .ok [{ content := .str "5",
               metadata := { filename := some "n.json",
                             file_path := some "n.json",
                             file_size := some 2, file_type := some ".json",
                             character_count := some 1 } }] := by
  have h := C6_load_json_spec.2.2 "n.json" 2 (.int 5) rfl
  exact h

/-! ## C7 -/

/-- C7 counterexample: a path that does not exist *and* has an unsupported
extension fails with `FileNotFoundError`, not with the unsupported-format
`ValueError` -- existence is checked first, so the claim's universal
"unsupported extension fails with UnsupportedFormatError" is false at this
input. -/
theorem C7_counterexample_missing_unsupported_path :
    load_document "missing.xyz" none
      = .error (.fileNotFound "File not found: missing.xyz") ∧
    PyErr.fileNotFound "File not found: missing.xyz"
      ≠ PyErr.valueError "Unsupported file format: .xyz" := by
  refine ⟨rfl, by decide⟩

/-- C7 amended: for an *existing* path with an extension outside the
supported set, `load_document` fails with the unsupported-format
`ValueError`; for a path that does not exist it fails with
`FileNotFoundError`, whatever the extension (existence is checked first).
The two are distinct, distinguishable exception kinds. -/
theorem C7_error_kinds :
    (∀ (path : String) (f : DiskFile),
      strLower (pathSuffix path) ∉ supported_formats →
      load_document path (some f)
        = .error (.valueError ("Unsupported file format: " ++ pathSuffix path))) ∧
    (∀ path : String,
      load_document path none
        = .error (.fileNotFound ("File not found: " ++ path))) := by
  constructor
  · intro path f h
    simp [load_document, h]
  · intro path
    rfl

/-- Witness for C7: an existing `.xyz` file raises the unsupported-format
error; a missing `.txt` path raises the not-found error. -/
theorem C7_witness :
    load_document "a.xyz" (some { size := 0, data := .txt "hi" })
      = .error (.valueError "Unsupported file format: .xyz") ∧
    load_document "nope.txt" none
      = .error (.fileNotFound "File not found: nope.txt") := by
  refine ⟨?_, C7_error_kinds.2 "nope.txt"⟩
  exact C7_error_kinds.1 "a.xyz" { size := 0, data := .txt "hi" } (by decide)

/-! ## C8 -/

theorem formatLoop_ok :
    ∀ (docs0 : List String) (meta0 : List Metadata)
      (dist0 : Option (List Score)) (i : Nat),
      i + docs0.length ≤ meta0.length →
      (∀ l, dist0 = some l → i + docs0.length ≤ l.length) →
      ∃ out, formatLoop meta0 dist0 i docs0 = .ok out ∧
        out.length = docs0.length ∧
        out.map (fun r => r.content) = docs0 := by
  intro docs0
  induction docs0 with
  | nil =>
    intro meta0 dist0 i h1 h2
    exact ⟨[], rfl, rfl, rfl⟩
  | cons c cs ih =>
    intro meta0 dist0 i h1 h2
    have hi : i < meta0.length := by
      simp only [List.length_cons] at h1; omega
    obtain ⟨m, hm⟩ : ∃ m, meta0.get? i = some m := ⟨_, List.get?_eq_get hi⟩
    cases dist0 with
    | none =>
      obtain ⟨out, hout, hlen, hmap⟩ := ih meta0 none (i + 1)
        (by simp only [List.length_cons] at h1; omega)
        (by intro l hl; cases hl)
      refine ⟨{ content := c, metadata := m, distance := none } :: out, ?_,
        by simp [hlen], by simp [hmap]⟩
      simp only [formatLoop]
      rw [hm, hout]
      rfl
    | some l =>
      have hil : i < l.length := by
        have := h2 l rfl
        simp only [List.length_cons] at this; omega
      obtain ⟨d, hd⟩ : ∃ d, l.get? i = some d := ⟨_, List.get?_eq_get hil⟩
      obtain ⟨out, hout, hlen, hmap⟩ := ih meta0 (some l) (i + 1)
        (by simp only [List.length_cons] at h1; omega)
        (by
          intro l2 hl2
          cases hl2
          have := h2 l rfl
          simp only [List.length_cons] at this; omega)
      refine ⟨{ content := c, metadata := m, distance := some d } :: out, ?_,
        by simp [hlen], by simp [hmap]⟩
      simp only [formatLoop]
      rw [hm, hd, hout]
      rfl

/-- C8: against the Qdrant backend (whose external search is any relevance
permutation of the stored points), `RAGPipeline.query` succeeds and returns
the question verbatim, a `num_sources` equal to the number of records
actually retrieved, at most `max_results` of them (the configured `topK`,
default 5), and the generated response for exactly those records; an empty
collection yields `num_sources = 0`. -/
theorem C8_query_reports_retrieved_count
    (cfg : Config) (embed : String → Embedding)
    (rank : Embedding → List QPoint → List QPoint) (scoreOf : QPoint → Score)
    (st : QdrantState) (llm : String → String → LLMContent)
    (question : String)
    (hrank : ∀ e pts, List.Perm (rank e pts) pts) :
    ∃ r, RAGPipeline.query cfg embed
        (QdrantVectorDB.query rank scoreOf st) llm question = .ok r ∧
      r.question = question ∧
      r.num_sources = r.retrieved_documents.length ∧
      r.num_sources ≤ cfg.max_results ∧
      (st.points = [] → r.num_sources = 0) ∧
      r.response = generate_response llm question r.retrieved_documents := by
  set search := (rank (embed question) st.points).take cfg.max_results with hsearch
  have hretr : ∃ out, retrieve_documents cfg embed
      (QdrantVectorDB.query rank scoreOf st) question = .ok out ∧
      out.length = search.length := by
    obtain ⟨out, hout, hlen, _⟩ := formatLoop_ok
      (search.map (fun r => r.payload.content))
      (search.map (fun r =>
        ({ filename := some r.payload.filename,
           file_path := some r.payload.file_path,
           file_type := some r.payload.file_type,
           chunk_id := some r.payload.chunk_id,
           chunk_text := some r.payload.chunk_text,
           file_size := some r.payload.file_size,
           character_count := some r.payload.character_count } : Metadata)))
      (if (search.map scoreOf).isEmpty then none else some (search.map scoreOf))
      0
      (by simp)
      (by
        intro l hl
        by_cases hemp : (search.map scoreOf).isEmpty = true
        · rw [if_pos hemp] at hl; cases hl
        · rw [if_neg hemp] at hl
          injection hl with h
          subst h
          simp)
    refine ⟨out, ?_, by simpa using hlen⟩
    exact hout
  obtain ⟨out, hout, hlen⟩ := hretr
  refine ⟨{ question := question,
            response := generate_response llm question out,
            retrieved_documents := out, num_sources := out.length },
    ?_, rfl, rfl, ?_, ?_, rfl⟩
  · simp only [RAGPipeline.query, hout]
    rfl
  · rw [hlen, hsearch]
    calc ((rank (embed question) st.points).take cfg.max_results).length
        = min cfg.max_results (rank (embed question) st.points).length :=
          List.length_take _ _
      _ ≤ cfg.max_results := Nat.min_le_left _ _
  · intro hempty
    have hnil : rank (embed question) [] = [] :=
      List.Perm.eq_nil (hrank (embed question) [])
    rw [hlen, hsearch, hempty, hnil]
    simp

/-- Witness for C8: a query against an empty Qdrant collection succeeds and
reports `num_sources = 0`. -/
theorem C8_witness :
    ∃ r, RAGPipeline.query {} (fun _ => [])
        (QdrantVectorDB.query (fun _ pts => pts) (fun _ => 0) qdrant0)
        (fun _ _ => .str "answer") "q" = .ok r ∧ r.num_sources = 0 := by
  obtain ⟨r, hq, _, _, _, hemp, _⟩ :=
    C8_query_reports_retrieved_count {} (fun _ => []) (fun _ pts => pts)
      (fun _ => 0) qdrant0 (fun _ _ => .str "answer") "q"
      (fun _ pts => List.Perm.refl pts)
  exact ⟨r, hq, hemp rfl⟩

/-! ## C9 -/

/-- C9 counterexample: constructing the pipeline with the generation
credential unset fails (`__init__` unconditionally calls `_setup_llm`), so
ingestion-only use does *not* succeed without the credential; the raised
error is a generic `ValueError`, not a distinct configuration-error kind. -/
theorem C9_counterexample_init_requires_key :
    RAGPipeline.init {} none
      = .error (.valueError "GROQ_API_KEY environment variable is required") := by
  rfl

/-- C9 amended: for every configuration with a supported provider, a missing
(or empty) `GROQ_API_KEY` makes pipeline construction itself fail with
`ValueError("GROQ_API_KEY environment variable is required")` -- there is no
ingestion-only construction path without the credential; with a non-empty
key set, construction succeeds. -/
theorem C9_init_always_requires_credential :
    ∀ cfg : Config,
      strLower cfg.provider ∈ ["chromadb", "weaviate", "qdrant"] →
      (RAGPipeline.init cfg none
        = .error (.valueError "GROQ_API_KEY environment variable is required")) ∧
      (∀ k, k ≠ "" → (RAGPipeline.init cfg (some k)).isOk = true) := by
  intro cfg hprov
  have hvdb : ∃ v, create_vector_db cfg = .ok v := by
    simp only [List.mem_cons, List.not_mem_nil, or_false] at hprov
    rcases hprov with h | h | h
    · exact ⟨.chroma cfg.path cfg.collection_name, by simp [create_vector_db, h]⟩
    · exact ⟨.weaviate cfg.url cfg.class_name, by simp [create_vector_db, h]⟩
    · exact ⟨.qdrant cfg.url cfg.collection_name, by simp [create_vector_db, h]⟩
  obtain ⟨v, hv⟩ := hvdb
  constructor
  · simp only [RAGPipeline.init, hv]
    rfl
  · intro k hk
    simp only [RAGPipeline.init, hv, setup_llm]
    rw [if_neg hk]
    rfl

/-- Witness for C9: with the default configuration, construction without
the key fails with the `ValueError`, and succeeds with a key set. -/
theorem C9_witness :
    (RAGPipeline.init {} none
      = .error (.valueError "GROQ_API_KEY environment variable is required")) ∧
    (RAGPipeline.init {} (some "gsk-test")).isOk = true := by
  have h := C9_init_always_requires_credential {} (by decide)
  exact ⟨h.1, h.2 "gsk-test" (by decide)⟩

/-! ## C10 -/

/-- C10: `clear_database` first reads the live collection count.  When the
count is 0 it returns at once: the pipeline state is unchanged and the only
backend call made is the count read -- no `delete_collection`, no handle
recreation.  When the count is positive it deletes the collection and
rebuilds the vector-store handle from configuration, which recreates the
collection empty. -/
theorem C10_clear_database_spec :
    (∀ st : PipeState,
      (QdrantVectorDB.get_collection_info st.server st.handle_collection).count
        = 0 →
      clear_database st = .ok (st, [.getInfo])) ∧
    (∀ st : PipeState,
      0 < (QdrantVectorDB.get_collection_info st.server
        st.handle_collection).count →
      clear_database st = .ok
        ({ server := QdrantVectorDB.create_collection
             { collections := List.filter (fun c => c.1 != st.handle_collection)
                                st.server.collections }
             st.cfg.collection_name,
           handle_collection := st.cfg.collection_name, cfg := st.cfg },
         [.getInfo, .deleteCollection, .createVectorDb])) := by
  constructor
  · intro st h
    simp [clear_database, h]
  · intro st h
    have hne : ¬ (QdrantVectorDB.get_collection_info st.server
        st.handle_collection).count = 0 := by omega
    have hlk : (st.server.collections.lookup st.handle_collection).isSome
        = true := by
      rcases hl : st.server.collections.lookup st.handle_collection with _ | pts
      · exfalso
        unfold QdrantVectorDB.get_collection_info at h
        rw [hl] at h
        simp at h
      · rfl
    have hdel : QdrantVectorDB.delete_collection st.server st.handle_collection
        = .ok { collections := List.filter (fun c => c.1 != st.handle_collection) st.server.collections } := by
      simp [QdrantVectorDB.delete_collection, hlk]
    simp only [clear_database]
    rw [if_neg hne, hdel]

/-- A pipeline over a server whose collection is already empty. -/
def pipeEmpty : PipeState :=
  { server := { collections := [("documents", [])] },
    handle_collection := "documents", cfg := {} }

/-- A pipeline over a server whose collection holds one point. -/
def pipeOne : PipeState :=
  { server := { collections := [("documents",
      [{ id := .uuidId 0, vector := [1], payload := adapterPayload 0 "a" {} }])] },
    handle_collection := "documents", cfg := {} }

/-- Witness for C10: clearing an already-empty collection changes nothing
and makes only the count read; clearing a one-point collection deletes and
recreates it empty. -/
theorem C10_witness :
    clear_database pipeEmpty = .ok (pipeEmpty, [.getInfo]) ∧
    clear_database pipeOne = .ok
      ({ server := { collections := [("documents", [])] },
         handle_collection := "documents", cfg := {} },
       [.getInfo, .deleteCollection, .createVectorDb]) := by
  constructor
  · exact C10_clear_database_spec.1 pipeEmpty rfl
  · exact C10_clear_database_spec.2 pipeOne (by decide)

end RAG
